import Mathlib

/-!
Shallow embedding of the financial-coach pipeline in `finai_coach_app.py`:
the analyzer (`FinancialAnalyzerAgent.analyze`), the planner
(`FinancialPlannerAgent.create_plan`), the advisor
(`FinancialAdvisorAgent.generate_advice`), the suggested-question helper
(`generate_suggested_questions`), and the session-state caching logic of
`main` around the analyzer/planner stages.

Monetary amounts are embedded as rationals (`ℚ`), idealizing Python/numpy
floats; where the source's float semantics diverge from field arithmetic
(numpy division by zero producing `inf`/`nan` instead of raising), the
embedding makes that behavior explicit at the point of use, with a comment.
Fallible operations (pandas `idxmax` on an empty Series raises `ValueError`)
are embedded with `Except`.
-/

namespace FinAI

/-- A value of the `date` column of the DataFrame.  The caller loads dates as
strings (`load_sample_data` stores `'%Y-%m-%d'` strings; CSV upload yields
strings); `pd.to_datetime` converts them to timestamps.  Both representations
carry the same calendar date but are distinct values, which is what matters
for the frame-effect question. -/
inductive DateVal where
  | str (year month day : Nat)
  | ts (year month day : Nat)
deriving Repr, DecidableEq

/-- `pd.to_datetime` on one date cell: parses a string into a timestamp;
a timestamp stays itself (re-parsing is idempotent). -/
def to_datetime : DateVal → DateVal
  | .str y m d => .ts y m d
  | .ts y m d => .ts y m d

/-- `Series.dt.to_period('M')` on one cell: the (year, month) pair. -/
def monthOf : DateVal → Nat × Nat
  | .str y m _ => (y, m)
  | .ts y m _ => (y, m)

/-- One row of the caller's DataFrame: columns `date, income, spending,
category` (§3 of the spec; `load_sample_data` builds exactly these). -/
structure Transaction where
  date : DateVal
  income : ℚ
  spending : ℚ
  category : String
deriving Repr, DecidableEq

/-- The dict returned by `FinancialAnalyzerAgent.analyze` (lines 84-88).
`avg_monthly_income` is pandas `Series.mean()`, which is `NaN` on an empty
series — embedded as `Option ℚ` with `none` for `NaN`.
`expense_by_category` is the groupby-sum Series, embedded as an association
list sorted by category key (pandas `groupby` sorts group keys by default). -/
structure FinancialMetrics where
  total_income : ℚ
  total_expenses : ℚ
  net_savings : ℚ
  savings_rate : ℚ
  avg_monthly_income : Option ℚ
  expense_by_category : List (String × ℚ)
deriving Repr, DecidableEq

/-- Add `v` under key `k` in a key-sorted association list, summing with an
existing entry for `k`; the order parameter `lt` keeps keys sorted the way
pandas `groupby(sort=True)` sorts group labels. -/
def insertAdd [DecidableEq α] (lt : α → α → Bool) :
    List (α × ℚ) → α → ℚ → List (α × ℚ)
  | [], k, v => [(k, v)]
  | (k', v') :: rest, k, v =>
    if k = k' then (k', v' + v) :: rest
    else if lt k k' then (k, v) :: (k', v') :: rest
    else (k', v') :: insertAdd lt rest k v

/-- `Series.groupby(key).sum()`: fold the (key, value) pairs into a sorted
association list of per-key sums. -/
def groupSumBy [DecidableEq α] (lt : α → α → Bool)
    (pairs : List (α × ℚ)) : List (α × ℚ) :=
  pairs.foldl (fun acc kv => insertAdd lt acc kv.1 kv.2) []

/-- Boolean strict order on category labels (group keys). -/
def strLt (a b : String) : Bool := a < b

/-- Boolean lexicographic order on (year, month) periods. -/
def pairLt (a b : Nat × Nat) : Bool :=
  a.1 < b.1 || (a.1 == b.1 && a.2 < b.2)

/-- `Series.idxmax` together with the max value: the key of the first entry
attaining the maximum value (pandas `idxmax` returns the first occurrence of
the maximum), paired with that maximum.  `none` for an empty series, where
pandas raises `ValueError`. -/
def idxmaxAux : String × ℚ → List (String × ℚ) → String × ℚ
  | best, [] => best
  | best, kv :: rest =>
    if kv.2 > best.2 then idxmaxAux kv rest else idxmaxAux best rest

/-- See `idxmaxAux`. -/
def idxmax : List (String × ℚ) → Option (String × ℚ)
  | [] => none
  | kv :: rest => some (idxmaxAux kv rest)

/-- The message pandas attaches to the `ValueError` raised by `idxmax` on an
empty Series. -/
def emptyArgmaxError : String := "attempt to get argmax of an empty sequence"

/-- `FinancialAnalyzerAgent.analyze` (lines 74-88).  The first statement,
`data['date'] = pd.to_datetime(data['date'])`, assigns a new column into the
caller's DataFrame object, so the function both returns the metrics dict and
mutates the caller's data; the embedding returns the pair
(metrics, post-call state of the caller's DataFrame).
`income_std` (line 81) is computed in the source but never returned or used,
so it is not embedded. -/
def analyze (data : List Transaction) : FinancialMetrics × List Transaction :=
  let d := data.map (fun r => { r with date := to_datetime r.date })
  let total_income := (d.map Transaction.income).sum
  let total_expenses := (d.map Transaction.spending).sum
  let net_savings := total_income - total_expenses
  let savings_rate := if total_income > 0 then net_savings / total_income * 100 else 0
  let monthly_income :=
    groupSumBy pairLt ((d.filter (fun r => r.income > 0)).map
      (fun r => (monthOf r.date, r.income)))
  let income_mean : Option ℚ :=
    if monthly_income.isEmpty then none
    else some ((monthly_income.map Prod.snd).sum / (monthly_income.length : ℚ))
  let expense_by_category :=
    groupSumBy strLt ((d.filter (fun r => r.spending > 0)).map
      (fun r => (r.category, r.spending)))
  ({ total_income := total_income
     total_expenses := total_expenses
     net_savings := net_savings
     savings_rate := savings_rate
     avg_monthly_income := income_mean
     expense_by_category := expense_by_category }, d)

/-- Round to the nearest integer, ties to even — the rounding Python's
`format` applies for `:.0f` / `:.1f` (idealized over ℚ). -/
def roundHalfEven (q : ℚ) : ℤ :=
  let f := ⌊q⌋
  let r := q - (f : ℚ)
  if r < 1/2 then f
  else if 1/2 < r then f + 1
  else if f % 2 = 0 then f else f + 1

/-- Insert a comma before every later group of three digits; `n` is the
number of characters still to the right, including the current one. -/
def commaCore : List Char → Nat → List Char
  | [], _ => []
  | c :: cs, n =>
    if n % 3 = 0 then ',' :: c :: commaCore cs (n - 1)
    else c :: commaCore cs (n - 1)

/-- Group a digit string in threes with commas, as Python's `,` format flag. -/
def withCommas (s : List Char) : List Char :=
  match s with
  | [] => []
  | c :: cs => c :: commaCore cs cs.length

/-- Python `f"{q:,.0f}"`: round half-to-even to an integer and group the
digits in threes with commas. -/
def fmtThousands (q : ℚ) : String :=
  let n := roundHalfEven q
  (if n < 0 then "-" else "") ++ ⟨withCommas (Nat.repr n.natAbs).toList⟩

/-- Python `f"{q:.1f}"`: round half-to-even at one decimal place. -/
def fmtOneDec (q : ℚ) : String :=
  let n := roundHalfEven (q * 10)
  let a := n.natAbs
  (if n < 0 then "-" else "") ++ Nat.repr (a / 10) ++ "." ++ Nat.repr (a % 10)

/-- A `'type'/'title'/'message'` recommendation dict (lines 98-113). -/
structure Recommendation where
  type : String
  title : String
  message : String
deriving Repr, DecidableEq

/-- The `'recommendations'/'goals'` dict returned by `create_plan`
(line 115). -/
structure FinancialPlan where
  recommendations : List Recommendation
  goals : List String
deriving Repr, DecidableEq

/-- The `critical` recommendation of rule 1 (lines 98-101). -/
def lowSavingsRec (sr : ℚ) : Recommendation :=
  { type := "critical", title := "Low Savings Rate Detected"
    message := "Your savings rate is " ++ fmtOneDec sr ++
      "%. Target at least 15-20% for financial stability." }

/-- The `success` recommendation of rule 1 (lines 104-107). -/
def goodSavingsRec (sr : ℚ) : Recommendation :=
  { type := "success", title := "Excellent Savings Rate"
    message := "Great job! Your " ++ fmtOneDec sr ++
      "% savings rate is above average." }

/-- The `warning` recommendation of rule 2 (lines 110-113); `pct` is the
formatted share of income. -/
def highSpendingRec (cat pct : String) : Recommendation :=
  { type := "warning", title := "High " ++ cat ++ " Spending"
    message := cat ++ " spending is " ++ pct ++
      "% of income. Consider reducing to 10%." }

/-- The rule-1 goal string (line 102). -/
def savingsGoal : String := "Increase savings rate to 15% within 3 months"

/-- The rule-2 goal string (line 114). -/
def reduceGoal (cat : String) : String :=
  "Reduce " ++ cat ++ " spending by 30%"

/-- `FinancialPlannerAgent.create_plan` (lines 93-115).  Two points where
Python/numpy semantics are made explicit:
* line 108 `idxmax()` raises `ValueError` on an empty `expense_by_category`
  Series — embedded as `Except.error`;
* line 109 divides by `total_income` with no zero guard.  The operands are
  numpy scalars, so with `total_income == 0` the division does not raise: it
  yields `+inf` when the top amount is positive (and `inf * 100 > 15` is
  `True`, so the rule fires, formatting the share as `"inf"`), and `nan` when
  the top amount is zero (`nan * 100 > 15` is `False`).  The
  `total_income = 0` branch below encodes exactly that. -/
def create_plan (analysis_results : FinancialMetrics) :
    Except String FinancialPlan :=
  let sr := analysis_results.savings_rate
  let recs1 := if sr < 10 then [lowSavingsRec sr] else [goodSavingsRec sr]
  let goals1 := if sr < 10 then [savingsGoal] else []
  match idxmax analysis_results.expense_by_category with
  | none => Except.error emptyArgmaxError
  | some (top_expense_cat, top_amt) =>
    let ti := analysis_results.total_income
    let fires : Bool :=
      if ti = 0 then decide (0 < top_amt)
      else decide (top_amt / ti * 100 > 15)
    if fires then
      let pct := if ti = 0 then "inf" else fmtOneDec (top_amt / ti * 100)
      Except.ok
        { recommendations := recs1 ++ [highSpendingRec top_expense_cat pct]
          goals := goals1 ++ [reduceGoal top_expense_cat] }
    else
      Except.ok { recommendations := recs1, goals := goals1 }

/-- Lowercased-substring containment helper: does `hay` start with
`needle`? -/
def startsWithChars : List Char → List Char → Bool
  | [], _ => true
  | _ :: _, [] => false
  | a :: as, b :: bs => a == b && startsWithChars as bs

/-- Is `needle` a contiguous substring of `hay`? -/
def containsChars (needle : List Char) : List Char → Bool
  | [] => needle.isEmpty
  | c :: cs => startsWithChars needle (c :: cs) || containsChars needle cs

/-- `kw in query.lower()` — Python's case-insensitive keyword test as used in
`generate_advice` (the keywords are lower-case literals). -/
def hasKw (query kw : String) : Bool :=
  containsChars kw.toList query.toLower.toList

/-- The branch-1 (summarize/health) response of `generate_advice`
(line 124). -/
def summaryAdvice (a : FinancialMetrics) : String :=
  "Your overall financial health is fair. You have a savings rate of " ++
  fmtOneDec a.savings_rate ++ "% and a net savings of ₹" ++
  fmtThousands a.net_savings ++
  ". Your main challenge is a low savings rate, but you have a stable income. Focusing on reducing non-essential spending will significantly improve your financial standing."

/-- The branch-2 (savings/save) response (line 126). -/
def savingsAdvice (a : FinancialMetrics) : String :=
  "Based on your current financial data, you\x27re saving " ++
  fmtOneDec a.savings_rate ++
  "% of your income. The recommended savings rate is 15-20%. I suggest setting up automatic transfers to a savings account right after you receive income."

/-- The branch-3 (spending/expenses) response (line 130), parameterized by
the top category and its amount. -/
def spendingAdvice (top_expense : String) (top_amount : ℚ) : String :=
  "Your highest expense category is " ++ top_expense ++ " at ₹" ++
  fmtThousands top_amount ++
  ". I recommend reviewing this category for potential savings."

/-- The fallback response (line 132). -/
def fallbackAdvice : String :=
  "I can answer questions about savings, spending, and your financial plan. What would you like to know?"

/-- `FinancialAdvisorAgent.generate_advice` (lines 121-132): case-insensitive
substring routing, first match wins (`return` ends the function at the first
hit).  The spending branch calls `idxmax()`/`max()` on `expense_by_category`,
which raises `ValueError` when empty — embedded as `Except.error`.  The plan
is bound by the constructor but never read by `generate_advice`; neither
`self.analysis` nor `self.plan` is assigned to, so the call leaves both
unchanged — the embedding is a pure function of (analysis, plan, query). -/
def generate_advice (analysis : FinancialMetrics) (_plan : FinancialPlan)
    (query : String) : Except String String :=
  if hasKw query "summarize" || hasKw query "health" then
    Except.ok (summaryAdvice analysis)
  else if hasKw query "savings" || hasKw query "save" then
    Except.ok (savingsAdvice analysis)
  else if hasKw query "spending" || hasKw query "expenses" then
    match idxmax analysis.expense_by_category with
    | none => Except.error emptyArgmaxError
    | some (top_expense, top_amount) =>
      Except.ok (spendingAdvice top_expense top_amount)
  else
    Except.ok fallbackAdvice

/-- The deterministic candidate list built by `generate_suggested_questions`
(lines 30-36): two fixed prompts, a prompt naming `idxmax` of
`expense_by_category` (which raises `ValueError` when the series is empty —
`Except.error` here), and, only when `savings_rate < 15`, a
savings-improvement prompt.  The source then returns
`random.sample(questions, min(len(questions), 4))`; that randomized step is
modelled by the relation `IsRandomSample` below rather than by a function. -/
def suggestedQuestionPool (analysis : FinancialMetrics) :
    Except String (List String) :=
  match idxmax analysis.expense_by_category with
  | none => Except.error emptyArgmaxError
  | some (top_expense, _) =>
    Except.ok
      (["Summarize my financial health.", "What is my top priority?"] ++
       ["How can I reduce my spending on " ++ top_expense ++ "?"] ++
       (if analysis.savings_rate < 15 then
          ["Give me 3 ways to improve my savings rate."]
        else []))

/-- The contract of Python's `random.sample(pool, k)` with
`k = min(len(pool), 4)`: the output is `k` elements drawn without
replacement from `pool` (some permutation of a `k`-element
sub-multiset of `pool`). -/
def IsRandomSample (out pool : List String) : Prop :=
  List.Subperm out pool ∧ out.length = min pool.length 4

/-- The per-render session state of `main` that the analyzer/planner stages
touch: `st.session_state.financial_data`, `.step`, and the `'analysis'` and
`'plan'` cache slots (absent key = `none`). -/
structure AppState where
  financial_data : List Transaction
  step : Nat
  analysis : Option FinancialMetrics
  plan : Option FinancialPlan
deriving Repr

/-- Lines 172-179 of `main`: when `step >= 1`, compute and cache the
analysis only if the `'analysis'` key is absent.  Returns the new state and
the number of `FinancialAnalyzerAgent.analyze` calls made (the call-count
probe).  `analyze` also rewrites the `date` column of the session's
DataFrame in place, hence the `financial_data` update. -/
def analyzerStage (s : AppState) : AppState × Nat :=
  if 1 ≤ s.step then
    match s.analysis with
    | none =>
      let r := analyze s.financial_data
      ({ s with analysis := some r.1, financial_data := r.2 }, 1)
    | some _ => (s, 0)
  else (s, 0)

/-- Lines 186-193 of `main`: when `step >= 2`, compute and cache the plan
only if the `'plan'` key is absent, from the cached analysis.  Returns the
new state and the number of `create_plan` calls.  When `create_plan` raises
(empty expense data), the exception propagates out of the script run and the
`'plan'` key is never assigned, so the state is unchanged though a call was
made.  (`step >= 2` implies the analyzer block just above has already
populated `'analysis'`; the `none` analysis case is unreachable in the app
and performs no call.) -/
def plannerStage (s : AppState) : AppState × Nat :=
  if 2 ≤ s.step then
    match s.plan, s.analysis with
    | none, some m =>
      match create_plan m with
      | .ok p => ({ s with plan := some p }, 1)
      | .error _ => (s, 1)
    | none, none => (s, 0)
    | some _, _ => (s, 0)
  else (s, 0)

/-- One pass through the agentic-workflow expander (lines 166-209): the
analyzer conditional, then the planner conditional, in source order.
Returns (state, analyze-call count, create_plan-call count). -/
def renderWorkflow (s : AppState) : AppState × Nat × Nat :=
  let r1 := analyzerStage s
  let r2 := plannerStage r1.1
  (r2.1, r1.2, r2.2)

deriving instance DecidableEq for Except

/-! Concrete fixtures used to instantiate the theorems below. -/

/-- A one-row ledger with a single `Food` expense and no income at all:
`total_income = 0` with a non-empty `expense_by_category`. -/
def dZero : List Transaction :=
  [{ date := DateVal.str 2025 4 1, income := 0, spending := 100, category := "Food" }]

/-- A one-row ledger whose date is still in string form, as the data-loading
collaborator supplies it. -/
def dStr : List Transaction :=
  [{ date := DateVal.str 2025 4 1, income := 100, spending := 0, category := "Salary" }]

/-- Metrics with an empty `expense_by_category` (no spending rows at all). -/
def mEmpty : FinancialMetrics :=
  { total_income := 10000, total_expenses := 0, net_savings := 10000
    savings_rate := 100, avg_monthly_income := some 10000
    expense_by_category := [] }

/-- Metrics of the §8 scenario `total_income=10000, total_expenses=9500`:
savings rate 5, one expense category. -/
def mW : FinancialMetrics :=
  { total_income := 10000, total_expenses := 9500, net_savings := 500
    savings_rate := 5, avg_monthly_income := some 10000
    expense_by_category := [("Food", 3000)] }

/-- An arbitrary plan value for advisor calls (the advisor never reads it). -/
def planW : FinancialPlan := { recommendations := [], goals := [] }

/-- The candidate-question pool `suggestedQuestionPool` produces for `mW`
(savings rate 5 < 15, top category `Food`). -/
def poolW : List String :=
  ["Summarize my financial health.", "What is my top priority?",
   "How can I reduce my spending on Food?",
   "Give me 3 ways to improve my savings rate."]

/-- A session that has just entered step 1 with nothing cached yet. -/
def s0 : AppState :=
  { financial_data := dZero, step := 1, analysis := none, plan := none }

/-! Helper lemmas. -/

/-- `idxmax` is `some` exactly on non-empty association lists. -/
theorem idxmax_of_ne_nil {l : List (String × ℚ)} (h : l ≠ []) :
    ∃ kv, idxmax l = some kv := by
  cases l with
  | nil => exact absurd rfl h
  | cons kv rest => exact ⟨idxmaxAux kv rest, rfl⟩

/-- The rule-2 goal never collides with the rule-1 goal (they start with
different letters), whatever the category name. -/
theorem reduceGoal_ne_savingsGoal (cat : String) : reduceGoal cat ≠ savingsGoal := by
  intro h
  have h1 : (reduceGoal cat).data.head? = some 'R' := rfl
  rw [h] at h1
  exact absurd h1 (by decide)

/-- The summarize-branch response never collides with a spending-branch
response (they differ at the sixth character), whatever the metrics. -/
theorem summaryAdvice_ne_spendingAdvice (a : FinancialMetrics) (top : String) (amt : ℚ) :
    summaryAdvice a ≠ spendingAdvice top amt := by
  intro h
  have h1 : (summaryAdvice a).data.get? 5 = some 'o' := rfl
  have h2 : (spendingAdvice top amt).data.get? 5 = some 'h' := rfl
  rw [h] at h1
  rw [h1] at h2
  exact absurd h2 (by decide)

/-- The top-category question never collides with the savings-improvement
question, whatever the category name. -/
theorem topQuestion_ne_savingsQuestion (top : String) :
    ("How can I reduce my spending on " ++ top ++ "?") ≠
      "Give me 3 ways to improve my savings rate." := by
  intro h
  have h1 : ("How can I reduce my spending on " ++ top ++ "?").data.head? = some 'H' := rfl
  rw [h] at h1
  exact absurd h1 (by decide)

/-- Inserting `(k, v)` into a grouped association list adds `v` to the sum of
its values. -/
theorem insertAdd_snd_sum [DecidableEq α] (lt : α → α → Bool)
    (l : List (α × ℚ)) (k : α) (v : ℚ) :
    ((insertAdd lt l k v).map Prod.snd).sum = (l.map Prod.snd).sum + v := by
  induction l with
  | nil => simp [insertAdd]
  | cons kv rest ih =>
    obtain ⟨k', v'⟩ := kv
    by_cases h1 : k = k'
    · simp [insertAdd, h1]
      ring
    · by_cases h2 : lt k k'
      · simp [insertAdd, h1, h2]
        ring
      · simp [insertAdd, h1, h2, ih]
        ring

/-- Group-by-and-sum preserves the total of the values. -/
theorem groupSumBy_snd_sum [DecidableEq α] (lt : α → α → Bool)
    (ps : List (α × ℚ)) :
    ((groupSumBy lt ps).map Prod.snd).sum = (ps.map Prod.snd).sum := by
  suffices h : ∀ acc : List (α × ℚ),
      ((ps.foldl (fun a kv => insertAdd lt a kv.1 kv.2) acc).map Prod.snd).sum =
        (acc.map Prod.snd).sum + (ps.map Prod.snd).sum by
    simpa [groupSumBy] using h []
  induction ps with
  | nil => intro acc; simp
  | cons kv rest ih =>
    intro acc
    simp [List.foldl, ih, insertAdd_snd_sum]
    ring

/-- Dropping the rows with `spending ≤ 0` loses nothing from the spending
total when every row's spending is non-negative. -/
theorem sum_filter_spending_pos (l : List Transaction)
    (h : ∀ r ∈ l, 0 ≤ r.spending) :
    ((l.filter (fun r => r.spending > 0)).map Transaction.spending).sum =
      (l.map Transaction.spending).sum := by
  induction l with
  | nil => simp
  | cons r rest ih =>
    have hr : 0 ≤ r.spending := h r (List.mem_cons_self r rest)
    have hrest : ∀ x ∈ rest, 0 ≤ x.spending :=
      fun x hx => h x (List.mem_cons_of_mem _ hx)
    by_cases hp : r.spending > 0
    · simp [List.filter_cons, hp, ih hrest]
    · have h0 : r.spending = 0 := le_antisymm (not_lt.1 hp) hr
      simp [List.filter_cons, hp, ih hrest, h0]

/-- When the analysis cache is already populated, the analyzer stage does
nothing and makes no `analyze` call. -/
theorem analyzerStage_cached (s : AppState) (h : s.analysis.isSome = true) :
    analyzerStage s = (s, 0) := by
  unfold analyzerStage
  cases hA : s.analysis with
  | none => rw [hA] at h; exact absurd h (by simp)
  | some m => simp [hA]

/-- After an analyzer pass at step ≥ 1 the analysis cache is populated. -/
theorem analyzerStage_populates (s : AppState) (h : 1 ≤ s.step) :
    ((analyzerStage s).1.analysis).isSome = true := by
  unfold analyzerStage
  rw [if_pos h]
  cases hA : s.analysis with
  | none => simp
  | some m => simp [hA]

/-- The planner stage never touches the analysis cache. -/
theorem plannerStage_analysis (s : AppState) :
    (plannerStage s).1.analysis = s.analysis := by
  unfold plannerStage
  split
  · split
    · split <;> rfl
    · rfl
    · rfl
  · rfl

/-- When the plan cache is already populated, the planner stage does nothing
and makes no `create_plan` call. -/
theorem plannerStage_cached (s : AppState) (h : s.plan.isSome = true) :
    plannerStage s = (s, 0) := by
  obtain ⟨p, hP⟩ := Option.isSome_iff_exists.1 h
  unfold plannerStage
  rw [hP]
  split
  · cases s.analysis <;> rfl
  · rfl

/-- The analyzer stage makes at most one `analyze` call per pass. -/
theorem analyzerStage_count_le (s : AppState) : (analyzerStage s).2 ≤ 1 := by
  unfold analyzerStage
  split
  · split <;> simp
  · simp

/-! Claim theorems. -/

/-- Claim C1 (code bug): the claim says that with `total_income == 0` and a
non-empty `expense_by_category`, rule 2 of `create_plan` is skipped — no
`warning` recommendation and no `Reduce {category} spending by 30%` goal.
On the source, the unguarded division at line 109 evaluates (in numpy float
arithmetic) to `+inf`, the `> 15` test succeeds, and the rule fires: this
theorem evaluates the embedded `create_plan` on the metrics of the
no-income/one-Food-expense ledger `dZero` and shows the plan does contain
the `warning` recommendation (with an `inf` percentage in its message) and
the reduce-spending goal.  The call does not raise, so only the
skip part of the claim fails. -/
theorem zero_income_rule2_fires :
    create_plan (analyze dZero).1 =
      Except.ok { recommendations := [lowSavingsRec 0, highSpendingRec "Food" "inf"]
                  goals := [savingsGoal, reduceGoal "Food"] } := by
  with_unfolding_all decide

/-- Claim C2 (counterexample): `analyze` does not leave the caller's
transaction collection unchanged — on a ledger whose date column holds the
loader's strings, the date column differs after the call (it now holds
parsed timestamps). -/
theorem analyze_mutates_input : (analyze dStr).2 ≠ dStr := by
  with_unfolding_all decide

/-- Claim C2 (amended): `analyze` leaves the `income`, `spending` and
`category` columns of the caller's collection unchanged (and keeps the row
order and count), but overwrites the `date` column in place with
`pd.to_datetime` of each entry — the same calendar dates in parsed form. -/
theorem analyze_frame_effect (data : List Transaction) :
    ((analyze data).2).map Transaction.income = data.map Transaction.income ∧
    ((analyze data).2).map Transaction.spending = data.map Transaction.spending ∧
    ((analyze data).2).map Transaction.category = data.map Transaction.category ∧
    ((analyze data).2).map Transaction.date = data.map (fun r => to_datetime r.date) := by
  have h2 : (analyze data).2 =
      data.map (fun r => { r with date := to_datetime r.date }) := rfl
  rw [h2]
  simp only [List.map_map]
  exact ⟨rfl, rfl, rfl, rfl⟩

/-- Claim C3: the savings rate computed by `analyze` is `0` when
`total_income` is `0` (a policy value, not a division error — `analyze`
is a total function), and `net_savings / total_income * 100` when
`total_income` is positive. -/
theorem savings_rate_policy (data : List Transaction) :
    ((analyze data).1.total_income = 0 → (analyze data).1.savings_rate = 0) ∧
    (0 < (analyze data).1.total_income →
      (analyze data).1.savings_rate =
        (analyze data).1.net_savings / (analyze data).1.total_income * 100) := by
  have hsr : (analyze data).1.savings_rate =
      if (analyze data).1.total_income > 0 then
        (analyze data).1.net_savings / (analyze data).1.total_income * 100
      else 0 := rfl
  constructor
  · intro h
    rw [hsr, if_neg]
    rw [h]
    exact lt_irrefl 0
  · intro h
    rw [hsr, if_pos h]

/-- Claim C3 witness: on the no-income ledger `dZero` the total income is `0`
and the savings rate comes out `0`. -/
theorem savings_rate_policy_w :
    (analyze dZero).1.total_income = 0 ∧ (analyze dZero).1.savings_rate = 0 :=
  ⟨by with_unfolding_all decide,
   (savings_rate_policy dZero).1 (by with_unfolding_all decide)⟩

/-- Claim C4: invoking `create_plan` on metrics with an empty
`expense_by_category` does not return a plan: the `idxmax()` call at
line 108 raises `ValueError`, embedded as the `Except.error` result. -/
theorem create_plan_empty_expense (m : FinancialMetrics)
    (h : m.expense_by_category = []) :
    create_plan m = Except.error emptyArgmaxError := by
  unfold create_plan
  rw [h]
  rfl

/-- Claim C4 witness: concrete metrics with no expense categories make
`create_plan` fail with the argmax error. -/
theorem create_plan_empty_expense_w :
    mEmpty.expense_by_category = [] ∧
      create_plan mEmpty = Except.error emptyArgmaxError :=
  ⟨rfl, create_plan_empty_expense mEmpty rfl⟩

/-- Claim C5: under the §4.2 precondition that `expense_by_category` is
non-empty (the empty case is the named failure of claim C4), `create_plan`
returns a plan with at least one recommendation; the first recommendation is
the `critical` "Low Savings Rate Detected" one exactly when
`savings_rate < 10` and the `success` "Excellent Savings Rate" one
otherwise; and the goal "Increase savings rate to 15% within 3 months" is in
the plan exactly when `savings_rate < 10` (the `type`/`title` fields of the
two rule-1 recommendations are spelled out in `lowSavingsRec` /
`goodSavingsRec`, and re-checked by the last four conjuncts). -/
theorem create_plan_rule1 (m : FinancialMetrics)
    (h : m.expense_by_category ≠ []) :
    ∃ p, create_plan m = Except.ok p ∧
      p.recommendations ≠ [] ∧
      p.recommendations.head? =
        some (if m.savings_rate < 10 then lowSavingsRec m.savings_rate
              else goodSavingsRec m.savings_rate) ∧
      (savingsGoal ∈ p.goals ↔ m.savings_rate < 10) ∧
      (lowSavingsRec m.savings_rate).type = "critical" ∧
      (lowSavingsRec m.savings_rate).title = "Low Savings Rate Detected" ∧
      (goodSavingsRec m.savings_rate).type = "success" ∧
      (goodSavingsRec m.savings_rate).title = "Excellent Savings Rate" := by
  obtain ⟨⟨top, amt⟩, hi⟩ := idxmax_of_ne_nil h
  by_cases h10 : m.savings_rate < 10
  · simp only [create_plan, hi, if_pos h10]
    split <;> split <;>
      exact ⟨_, rfl, by simp, by simp [h10], by simp [h10], rfl, rfl, rfl, rfl⟩
  · simp only [create_plan, hi, if_neg h10]
    split <;> split <;>
      exact ⟨_, rfl, by simp, by simp [h10],
        by simp [h10, Ne.symm (reduceGoal_ne_savingsGoal top)], rfl, rfl, rfl, rfl⟩

/-- Claim C5 witness: on the §8 scenario metrics `mW` (savings rate 5), the
plan's first recommendation is the critical low-savings one and the
increase-savings goal is present. -/
theorem create_plan_rule1_w :
    mW.expense_by_category ≠ [] ∧
      ∃ p, create_plan mW = Except.ok p ∧
        p.recommendations ≠ [] ∧
        p.recommendations.head? =
          some (if mW.savings_rate < 10 then lowSavingsRec mW.savings_rate
                else goodSavingsRec mW.savings_rate) ∧
        (savingsGoal ∈ p.goals ↔ mW.savings_rate < 10) ∧
        (lowSavingsRec mW.savings_rate).type = "critical" ∧
        (lowSavingsRec mW.savings_rate).title = "Low Savings Rate Detected" ∧
        (goodSavingsRec mW.savings_rate).type = "success" ∧
        (goodSavingsRec mW.savings_rate).title = "Excellent Savings Rate" :=
  ⟨by with_unfolding_all decide, create_plan_rule1 mW (by with_unfolding_all decide)⟩

/-- Claim C6: the advisor's routes are checked in the fixed order
summarize/health, savings/save, spending/expenses, fallback, and the first
match wins.  In particular a query containing both "summarize" and
"spending" (case-insensitively) gets the summarize-branch overview response,
and never a spending-branch response (for any category/amount the latter
could mention); the remaining four conjuncts characterize each of the four
routes in order, each under the failure of all earlier ones — including the
spending/expenses route, which answers with the spending-branch response for
the `idxmax` top category. -/
theorem advisor_priority (m : FinancialMetrics) (p : FinancialPlan) (q : String)
    (h1 : hasKw q "summarize" = true) (_h2 : hasKw q "spending" = true) :
    generate_advice m p q = Except.ok (summaryAdvice m) ∧
    (∀ top amt, generate_advice m p q ≠ Except.ok (spendingAdvice top amt)) ∧
    (∀ q', (hasKw q' "summarize" || hasKw q' "health") = true →
      generate_advice m p q' = Except.ok (summaryAdvice m)) ∧
    (∀ q', (hasKw q' "summarize" || hasKw q' "health") = false →
      (hasKw q' "savings" || hasKw q' "save") = true →
      generate_advice m p q' = Except.ok (savingsAdvice m)) ∧
    (∀ q', (hasKw q' "summarize" || hasKw q' "health") = false →
      (hasKw q' "savings" || hasKw q' "save") = false →
      (hasKw q' "spending" || hasKw q' "expenses") = true →
      ∀ top amt, idxmax m.expense_by_category = some (top, amt) →
        generate_advice m p q' = Except.ok (spendingAdvice top amt)) ∧
    (∀ q', (hasKw q' "summarize" || hasKw q' "health") = false →
      (hasKw q' "savings" || hasKw q' "save") = false →
      (hasKw q' "spending" || hasKw q' "expenses") = false →
      generate_advice m p q' = Except.ok fallbackAdvice) := by
  have hfirst : ∀ q', (hasKw q' "summarize" || hasKw q' "health") = true →
      generate_advice m p q' = Except.ok (summaryAdvice m) := by
    intro q' hq
    simp [generate_advice, hq]
  have hmain : generate_advice m p q = Except.ok (summaryAdvice m) :=
    hfirst q (by simp [h1])
  refine ⟨hmain, ?_, hfirst, ?_, ?_, ?_⟩
  · intro top amt hcontra
    rw [hmain] at hcontra
    exact summaryAdvice_ne_spendingAdvice m top amt (Except.ok.inj hcontra)
  · intro q' hq1 hq2
    simp [generate_advice, hq1, hq2]
  · intro q' hq1 hq2 hq3 top amt hidx
    simp [generate_advice, hq1, hq2, hq3, hidx]
  · intro q' hq1 hq2 hq3
    simp [generate_advice, hq1, hq2, hq3]

set_option maxRecDepth 2048 in
/-- Claim C6 witness: the query "Summarize my spending" contains both
keywords and gets the summarize-branch overview, not the spending-branch
response; and the keyword-3-only query "my expenses" gets the
spending-branch response for the top category Food. -/
theorem advisor_priority_w :
    hasKw "Summarize my spending" "summarize" = true ∧
    hasKw "Summarize my spending" "spending" = true ∧
    generate_advice mW planW "Summarize my spending" =
      Except.ok (summaryAdvice mW) ∧
    (∀ top amt, generate_advice mW planW "Summarize my spending" ≠
      Except.ok (spendingAdvice top amt)) ∧
    generate_advice mW planW "my expenses" =
      Except.ok (spendingAdvice "Food" 3000) :=
  ⟨by with_unfolding_all decide, by with_unfolding_all decide,
   (advisor_priority mW planW "Summarize my spending"
      (by with_unfolding_all decide) (by with_unfolding_all decide)).1,
   (advisor_priority mW planW "Summarize my spending"
      (by with_unfolding_all decide) (by with_unfolding_all decide)).2.1,
   (advisor_priority mW planW "Summarize my spending"
      (by with_unfolding_all decide) (by with_unfolding_all decide)).2.2.2.2.1
     "my expenses" (by with_unfolding_all decide) (by with_unfolding_all decide)
     (by with_unfolding_all decide) "Food" 3000 (by with_unfolding_all rfl)⟩

/-- Claim C7: in the situation the advisor is actually reachable
(`expense_by_category` non-empty, since otherwise the planner stage already
failed and no advisor is constructed), `generate_advice` is total over query
strings: every query gets some response string, and a query matching none of
the routing keywords gets exactly the explicit fallback string.  The call is
a pure function of `(metrics, plan, query)` — `generate_advice` assigns to
neither `self.analysis` nor `self.plan` — so it mutates neither. -/
theorem advisor_total (m : FinancialMetrics) (p : FinancialPlan) (q : String)
    (h : m.expense_by_category ≠ []) :
    (∃ s, generate_advice m p q = Except.ok s) ∧
    ((hasKw q "summarize" || hasKw q "health") = false →
     (hasKw q "savings" || hasKw q "save") = false →
     (hasKw q "spending" || hasKw q "expenses") = false →
     generate_advice m p q = Except.ok fallbackAdvice) := by
  obtain ⟨⟨top, amt⟩, hi⟩ := idxmax_of_ne_nil h
  constructor
  · unfold generate_advice
    rw [hi]
    split
    · exact ⟨_, rfl⟩
    · split
      · exact ⟨_, rfl⟩
      · split
        · exact ⟨_, rfl⟩
        · exact ⟨_, rfl⟩
  · intro h1 h2 h3
    simp [generate_advice, h1, h2, h3]

set_option maxRecDepth 2048 in
/-- Claim C7 witness: the keyword-free query "hello there" on the scenario
metrics gets a response, and that response is the explicit fallback
string. -/
theorem advisor_total_w :
    mW.expense_by_category ≠ [] ∧
      (∃ s, generate_advice mW planW "hello there" = Except.ok s) ∧
      generate_advice mW planW "hello there" = Except.ok fallbackAdvice :=
  ⟨by with_unfolding_all decide,
   (advisor_total mW planW "hello there" (by with_unfolding_all decide)).1,
   (advisor_total mW planW "hello there" (by with_unfolding_all decide)).2
     (by with_unfolding_all decide) (by with_unfolding_all decide)
     (by with_unfolding_all decide)⟩

/-- Claim C8: cache idempotence of the session-state logic in `main`.  For
any session past the start trigger (`step ≥ 1`), a render pass makes at most
one `analyze` call, and a subsequent re-render (no intervening reset) makes
zero `analyze` calls — the metrics cache is populated after the first pass
and the `'analysis' not in st.session_state` guard skips recomputation.
Likewise, once the plan cache is populated, a re-render makes zero
`create_plan` calls. -/
theorem cache_idempotence (s : AppState) (h : 1 ≤ s.step) :
    (renderWorkflow s).2.1 ≤ 1 ∧
    (renderWorkflow (renderWorkflow s).1).2.1 = 0 ∧
    ((renderWorkflow s).1.plan.isSome = true →
      (renderWorkflow (renderWorkflow s).1).2.2 = 0) := by
  have hs1 : ((renderWorkflow s).1.analysis).isSome = true := by
    show ((plannerStage (analyzerStage s).1).1.analysis).isSome = true
    rw [plannerStage_analysis]
    exact analyzerStage_populates s h
  have hA2 : analyzerStage (renderWorkflow s).1 = ((renderWorkflow s).1, 0) :=
    analyzerStage_cached _ hs1
  refine ⟨analyzerStage_count_le s, ?_, ?_⟩
  · show (analyzerStage (renderWorkflow s).1).2 = 0
    rw [hA2]
  · intro hp
    show (plannerStage (analyzerStage (renderWorkflow s).1).1).2 = 0
    rw [hA2, plannerStage_cached _ hp]

/-- Claim C8 witness: from a freshly started session (step 1, nothing
cached), the second render pass recomputes nothing. -/
theorem cache_idempotence_w :
    1 ≤ s0.step ∧
      (renderWorkflow s0).2.1 ≤ 1 ∧
      (renderWorkflow (renderWorkflow s0).1).2.1 = 0 ∧
      ((renderWorkflow s0).1.plan.isSome = true →
        (renderWorkflow (renderWorkflow s0).1).2.2 = 0) :=
  ⟨by decide, cache_idempotence s0 (by decide)⟩

/-- Claim C9: for a ledger whose spending amounts are all non-negative, the
values of `expense_by_category` sum to `total_expenses` — grouping only the
rows with `spending > 0` loses nothing relative to summing the whole
spending column, because the dropped rows all carry spending `0`. -/
theorem expense_partition (data : List Transaction)
    (h : ∀ r ∈ data, 0 ≤ r.spending) :
    (((analyze data).1.expense_by_category).map Prod.snd).sum =
      (analyze data).1.total_expenses := by
  have e1 : (analyze data).1.expense_by_category =
      groupSumBy strLt (((data.map (fun r => { r with date := to_datetime r.date })).filter
        (fun r => r.spending > 0)).map (fun r => (r.category, r.spending))) := rfl
  have e2 : (analyze data).1.total_expenses =
      ((data.map (fun r => { r with date := to_datetime r.date })).map
        Transaction.spending).sum := rfl
  have hd : ∀ r ∈ data.map (fun r => { r with date := to_datetime r.date }),
      0 ≤ r.spending := by
    intro r hr
    rw [List.mem_map] at hr
    obtain ⟨r0, hr0, rfl⟩ := hr
    exact h r0 hr0
  rw [e1, e2, groupSumBy_snd_sum, List.map_map]
  have e3 : (Prod.snd ∘ fun r : Transaction => (r.category, r.spending)) =
      Transaction.spending := rfl
  rw [e3]
  exact sum_filter_spending_pos _ hd

/-- Claim C9 witness: on the no-income one-expense ledger the single
category's value 100 equals the expense total 100. -/
theorem expense_partition_w :
    (∀ r ∈ dZero, 0 ≤ r.spending) ∧
      (((analyze dZero).1.expense_by_category).map Prod.snd).sum =
        (analyze dZero).1.total_expenses :=
  ⟨by with_unfolding_all decide,
   expense_partition dZero (by with_unfolding_all decide)⟩

/-- Claim C10: any output of `generate_suggested_questions` — i.e. any
`random.sample` of the candidate pool of size `min(len, 4)` — has at most 4
questions, all drawn from the pool; it contains the fixed "summarize health"
and "top priority" prompts and the prompt naming the top-spending category
(`idxmax` of `expense_by_category`), and it contains the savings-improvement
prompt exactly when `savings_rate < 15`.  Membership, not order, is the
contract: the statement quantifies over every admissible sample. -/
theorem suggested_questions_membership (m : FinancialMetrics)
    (pool out : List String)
    (hp : suggestedQuestionPool m = Except.ok pool)
    (hs : IsRandomSample out pool) :
    out.length ≤ 4 ∧
    (∀ s ∈ out, s ∈ pool) ∧
    "Summarize my financial health." ∈ out ∧
    "What is my top priority?" ∈ out ∧
    (∃ top amt, idxmax m.expense_by_category = some (top, amt) ∧
      ("How can I reduce my spending on " ++ top ++ "?") ∈ out) ∧
    (("Give me 3 ways to improve my savings rate.") ∈ out ↔
      m.savings_rate < 15) := by
  obtain ⟨hsub, hlen⟩ := hs
  have hle4 : out.length ≤ 4 := hlen ▸ Nat.min_le_right _ _
  cases hi : idxmax m.expense_by_category with
  | none =>
    unfold suggestedQuestionPool at hp
    rw [hi] at hp
    exact absurd hp (by simp)
  | some kv =>
    obtain ⟨top, amt⟩ := kv
    unfold suggestedQuestionPool at hp
    rw [hi] at hp
    have hpool := (Except.ok.inj hp).symm
    by_cases h15 : m.savings_rate < 15
    · rw [if_pos h15] at hpool
      subst hpool
      have hperm : out.Perm _ := hsub.perm_of_length_le (by rw [hlen]; simp)
      refine ⟨hle4, fun s hsin => hsub.subset hsin, ?_, ?_,
        ⟨top, amt, rfl, ?_⟩, ?_⟩
      · exact hperm.mem_iff.mpr (by simp)
      · exact hperm.mem_iff.mpr (by simp)
      · exact hperm.mem_iff.mpr (by simp)
      · exact iff_of_true (hperm.mem_iff.mpr (by simp)) h15
    · rw [if_neg h15] at hpool
      subst hpool
      have hperm : out.Perm _ := hsub.perm_of_length_le (by rw [hlen]; simp)
      refine ⟨hle4, fun s hsin => hsub.subset hsin, ?_, ?_,
        ⟨top, amt, rfl, ?_⟩, ?_⟩
      · exact hperm.mem_iff.mpr (by simp)
      · exact hperm.mem_iff.mpr (by simp)
      · exact hperm.mem_iff.mpr (by simp)
      · refine iff_of_false (fun hmem => ?_) h15
        have hin := hperm.mem_iff.mp hmem
        simp at hin
        exact topQuestion_ne_savingsQuestion top hin.symm

/-- Claim C10 witness: for the scenario metrics `mW` (savings rate 5 < 15,
top category Food) and the full pool taken as the sample, all four prompts
are present. -/
theorem suggested_questions_membership_w :
    suggestedQuestionPool mW = Except.ok poolW ∧
      IsRandomSample poolW poolW ∧
      ("Give me 3 ways to improve my savings rate.") ∈ poolW :=
  ⟨by with_unfolding_all decide,
   ⟨List.Subperm.refl poolW, by decide⟩,
   (suggested_questions_membership mW poolW poolW
      (by with_unfolding_all decide)
      ⟨List.Subperm.refl poolW, by decide⟩).2.2.2.2.2.mpr
     (by with_unfolding_all decide)⟩

end FinAI
